import Mathlib

/-!
Verification of the `ceph_volume` Ansible module (library/ceph_volume.py):
a shallow embedding of its command builders and of the `run_module`
dispatcher, followed by theorems about the claims of the specification.

Modelling conventions:
* Python `None`-able string parameters become `Option String`; Python
  truthiness of such a value (`if x:`) is `strTruthy`: false for `None`
  and for the empty string.
* The container image read from the `CEPH_CONTAINER_IMAGE` environment
  variable is an explicit `Option String` input (`is_containerized`).
* `module.run_command` is an explicit environment `env : List String → CmdOut`
  mapping an argument vector to the exit code and both output streams.
* `datetime.now()` values are explicit opaque inputs (`Times`).
* `module.fail_json` / `module.exit_json` / a plain `return` are the
  constructors of `Outcome`; a run also yields the list of argument
  vectors dispatched to `run_command`, in order.
-/

namespace CephVolume

/-- Python truthiness of an optional string: `None` and `""` are falsy. -/
def strTruthy : Option String → Bool
  | none => false
  | some s => !(s == "")

/-- The result of one `module.run_command` call: exit code, stdout, stderr. -/
structure CmdOut where
  rc : Int
  out : String
  err : String
deriving Repr, DecidableEq

/-- Opaque wall-clock values for `startd`, `endd` and their difference. -/
structure Times where
  startS : String
  endS : String
  deltaS : String
deriving Repr, DecidableEq

/-- The result dictionary assembled by `run_module`.  `cmd := none` and
`rc := none` model the initial dictionary, which has no `cmd` key and holds
the empty string in `rc`. -/
structure ResultDict where
  cmd : Option (List String)
  changed : Bool
  stdout : String
  stderr : String
  rc : Option Int
  startS : String
  endS : String
  deltaS : String
deriving Repr, DecidableEq

/-- How one invocation of the module ends. -/
inductive Outcome where
  /-- check mode: `run_module` returns the dictionary without exiting -/
  | returned : ResultDict → Outcome
  /-- `module.exit_json(**result)` -/
  | exited : ResultDict → Outcome
  /-- `module.fail_json(msg=..., changed=..., rc=...)` (`fatal`, bad action) -/
  | failedMsg : String → Bool → Int → Outcome
  /-- `module.fail_json(msg=..., **result)` -/
  | failedResult : String → ResultDict → Outcome
deriving Repr, DecidableEq

/-- The module parameters, with the defaults of the argument spec. -/
structure Params where
  cluster : String := "ceph"
  objectstore : String := "bluestore"
  action : String := "create"
  data : String := ""
  data_vg : Option String := none
  journal : Option String := none
  journal_vg : Option String := none
  db : Option String := none
  db_vg : Option String := none
  wal : Option String := none
  wal_vg : Option String := none
  crush_device_class : Option String := none
  dmcrypt : Bool := false
  batch_devices : List String := []
  osds_per_device : Int := 1
deriving Repr, DecidableEq

/-- `container_exec`: the docker CLI wrapping a command inside a container. -/
def container_exec (binary : String) (container_image : String) : List String :=
  ["docker", "run", "--rm", "--privileged", "--net=host",
   "-v", "/run/lock/lvm:/run/lock/lvm:z",
   "-v", "/dev:/dev", "-v", "/etc/ceph:/etc/ceph:z",
   "-v", "/run/lvm/lvmetad.socket:/run/lvm/lvmetad.socket",
   "-v", "/var/lib/ceph/:/var/lib/ceph/:z",
   "--entrypoint=" ++ binary,
   container_image]

/-- `build_ceph_volume_cmd`: binary or container wrapper, then the cluster
flag when the `cluster` argument is truthy, then `lvm` and the subcommand. -/
def build_ceph_volume_cmd (subcommand : String) (container_image : Option String)
    (cluster : Option String := none) : List String :=
  let cmd := if strTruthy container_image
    then container_exec "ceph-volume" (container_image.getD "")
    else ["ceph-volume"]
  let cmd := if strTruthy cluster then cmd ++ ["--cluster", cluster.getD ""] else cmd
  cmd ++ ["lvm", subcommand]

/-- `get_data`: vg-qualify the data reference when a volume group is given. -/
def get_data (data : String) (data_vg : Option String) : String :=
  if strTruthy data_vg then data_vg.getD "" ++ "/" ++ data else data

/-- `get_journal`. -/
def get_journal (journal : String) (journal_vg : Option String) : String :=
  if strTruthy journal_vg then journal_vg.getD "" ++ "/" ++ journal else journal

/-- `get_db`. -/
def get_db (db : String) (db_vg : Option String) : String :=
  if strTruthy db_vg then db_vg.getD "" ++ "/" ++ db else db

/-- `get_wal`. -/
def get_wal (wal : String) (wal_vg : Option String) : String :=
  if strTruthy wal_vg then wal_vg.getD "" ++ "/" ++ wal else wal

/-- Python `list.extend` applied to a string extends the list with each
character of the string as a separate one-character element; the source
calls `cmd.extend` on the plain strings `--yes` and `--no-systemd`. -/
def extendStr (cmd : List String) (s : String) : List String :=
  cmd ++ s.toList.map (fun c => String.mk [c])

/-- `batch`: validation via `fatal` (which exits through `fail_json`) is the
`Except.error` case; otherwise the batch argument vector.  The source
appends the Python int `osds_per_device` itself to the list; it is rendered
here with `toString`. -/
def batch (p : Params) (container_image : Option String) : Except String (List String) :=
  if p.osds_per_device == 0 then
    .error "osds_per_device must be provided if action is \"batch\""
  else if p.osds_per_device < 1 then
    .error "osds_per_device must be greater than 0 if action is \"batch\""
  else if p.batch_devices.isEmpty then
    .error "batch_devices must be provided if action is \"batch\""
  else
    let cmd := build_ceph_volume_cmd "batch" container_image (some p.cluster)
    let cmd := cmd ++ ["--" ++ p.objectstore]
    let cmd := extendStr cmd "--yes"
    let cmd := extendStr cmd "--no-systemd"
    let cmd := if strTruthy p.crush_device_class
      then cmd ++ ["--crush-device-class", p.crush_device_class.getD ""] else cmd
    let cmd := if p.dmcrypt then cmd ++ ["--dmcrypt"] else cmd
    let cmd := if p.osds_per_device > 1
      then cmd ++ ["--osds-per-device", toString p.osds_per_device] else cmd
    .ok (cmd ++ p.batch_devices)

/-- `prepare_osd`: note that the source reads `data` raw and never consults
`data_vg` (it calls no `get_data`), unlike the journal/db/wal references. -/
def prepare_osd (p : Params) (container_image : Option String) : List String :=
  let cmd := build_ceph_volume_cmd "prepare" container_image (some p.cluster)
  let cmd := cmd ++ ["--" ++ p.objectstore]
  let cmd := cmd ++ ["--data", p.data]
  let cmd := if strTruthy p.journal
    then cmd ++ ["--journal", get_journal (p.journal.getD "") p.journal_vg] else cmd
  let cmd := if strTruthy p.db
    then cmd ++ ["--block.db", get_db (p.db.getD "") p.db_vg] else cmd
  let cmd := if strTruthy p.wal
    then cmd ++ ["--block.wal", get_wal (p.wal.getD "") p.wal_vg] else cmd
  let cmd := if strTruthy p.crush_device_class
    then cmd ++ ["--crush-device-class", p.crush_device_class.getD ""] else cmd
  let cmd := if p.dmcrypt then cmd ++ ["--dmcrypt"] else cmd
  cmd

/-- `list_osd`: probe a device for Ceph LVM metadata. -/
def list_osd (p : Params) (container_image : Option String) : List String :=
  let data := get_data p.data p.data_vg
  build_ceph_volume_cmd "list" container_image (some p.cluster) ++ [data, "--format=json"]

/-- `activate_osd`: takes no parameters; `container_image` and `cluster` are
`None` inside, so neither a container wrapper nor a cluster flag appears. -/
def activate_osd : List String :=
  build_ceph_volume_cmd "activate" none ++ ["--all"]

/-- `zap_devices`: `--destroy`, the vg-qualified data reference, then the
journal, db and wal references when present; no cluster argument is passed
to the builder. -/
def zap_devices (p : Params) (container_image : Option String) : List String :=
  let data := get_data p.data p.data_vg
  let cmd := build_ceph_volume_cmd "zap" container_image
  let cmd := cmd ++ ["--destroy", data]
  let cmd := if strTruthy p.journal
    then cmd ++ [get_journal (p.journal.getD "") p.journal_vg] else cmd
  let cmd := if strTruthy p.db
    then cmd ++ [get_db (p.db.getD "") p.db_vg] else cmd
  let cmd := if strTruthy p.wal
    then cmd ++ [get_wal (p.wal.getD "") p.wal_vg] else cmd
  cmd

/-- `str.rstrip` of carriage returns and newlines. -/
def rstripCRLF (s : String) : String :=
  String.mk ((s.toList.reverse.dropWhile (fun c => c == '\r' || c == '\n')).reverse)

/-- The result dictionary built after a dispatched command finishes
(source lines 496-505): it always carries `changed := True`. -/
def finishResult (t : Times) (cmd : List String) (r : CmdOut) : ResultDict :=
  { cmd := some cmd, changed := true,
    stdout := rstripCRLF r.out, stderr := rstripCRLF r.err,
    rc := some r.rc,
    startS := t.startS, endS := t.endS, deltaS := t.deltaS }

/-- The tail of `run_module`: build the final dictionary, fail on a
non-zero exit code, exit successfully otherwise. -/
def finish (t : Times) (cmd : List String) (r : CmdOut) : Outcome :=
  if r.rc != 0 then .failedResult "non-zero return code" (finishResult t cmd r)
  else .exited (finishResult t cmd r)

/-- The initial result dictionary of `run_module`. -/
def initialResult : ResultDict :=
  { cmd := none, changed := false, stdout := "", stderr := "",
    rc := none, startS := "", endS := "", deltaS := "" }

/-- `run_module`, from the check-mode test to the final exit.  Returns the
outcome together with the argument vectors dispatched to `run_command`, in
order.  The `elif action == 'create'` and the `elif action == 'prepare'`
branches of the source are unreachable (the first `if` already matches both
actions); they are kept to mirror the chain.  In the unreachable create
branch the source would call `activate_osd` with two arguments it does not
accept, a `TypeError`; the call is modelled as the zero-argument call. -/
def run_module (env : List String → CmdOut) (checkMode : Bool)
    (container_image : Option String) (p : Params) (t : Times) :
    Outcome × List (List String) :=
  if checkMode then (.returned initialResult, [])
  else if p.action == "create" || p.action == "prepare" then
    let cmd := list_osd p container_image
    let r := env cmd
    if r.rc == 0 then
      (.exited { initialResult with
          stdout := "skipped, since " ++ p.data ++ " is already used for an osd",
          rc := some 0 }, [cmd])
    else
      (finish t cmd r, [cmd])
  else if p.action == "create" then
    let cmd := prepare_osd p container_image
    let r := env cmd
    if r.rc != 0 then
      (.failedResult "non-zero return code" initialResult, [cmd])
    else
      let cmd2 := activate_osd
      let r2 := env cmd2
      (finish t cmd2 r2, [cmd, cmd2])
  else if p.action == "prepare" then
    let cmd := prepare_osd p container_image
    let r := env cmd
    (finish t cmd r, [cmd])
  else if p.action == "activate" then
    if strTruthy container_image then
      (.failedMsg "This is not how container\x27s activation happens, nothing to activate" false 1, [])
    else
      let cmd := activate_osd
      let r := env cmd
      (finish t cmd r, [cmd])
  else if p.action == "zap" then
    let cmd := zap_devices p container_image
    let r := env cmd
    (finish t cmd r, [cmd])
  else if p.action == "list" then
    let cmd := list_osd p container_image
    let r := env cmd
    (finish t cmd r, [cmd])
  else if p.action == "batch" then
    match batch p container_image with
    | .error m => (.failedMsg m false 1, [])
    | .ok cmd =>
      let r := env cmd
      (finish t cmd r, [cmd])
  else
    (.failedMsg "State must either be \"create\" or \"prepare\" or \"activate\" or \"list\" or \"zap\" or \"batch\"." false 1, [])

/-- The binary-or-container-wrapper part that every built command starts
with, used to state the argv-layout theorems. -/
def binaryPart (container_image : Option String) : List String :=
  if strTruthy container_image
  then container_exec "ceph-volume" (container_image.getD "")
  else ["ceph-volume"]

end CephVolume

namespace CephVolume

/-- A dispatched command with a non-zero exit code makes `finish` fail
with the freshly built result dictionary. -/
theorem finish_eq_failed (t : Times) (c : List String) (r : CmdOut)
    (h : r.rc ≠ 0) :
    finish t c r = .failedResult "non-zero return code" (finishResult t c r) := by
  simp [finish, bne_iff_ne, h]

/-- `batch` validation: an empty device list or a non-positive
`osds_per_device` yields a `fatal` error before any command is built. -/
theorem batch_validation_error (p : Params) (ci : Option String)
    (h : p.batch_devices = [] ∨ p.osds_per_device < 1) :
    ∃ m, batch p ci = .error m := by
  unfold batch
  by_cases h0 : (p.osds_per_device == 0) = true
  · rw [if_pos h0]; exact ⟨_, rfl⟩
  · rw [if_neg h0]
    by_cases hlt : p.osds_per_device < 1
    · rw [if_pos hlt]; exact ⟨_, rfl⟩
    · rw [if_neg hlt]
      have hdev : p.batch_devices = [] := by
        rcases h with h | h
        · exact h
        · exact absurd h hlt
      rw [if_pos (by simp [hdev] : p.batch_devices.isEmpty = true)]
      exact ⟨_, rfl⟩

end CephVolume

namespace CephVolume

/-- C1: evaluation of the code at the failing input.  With
`action=create, objectstore=bluestore, data=/dev/sdc`, no container
context, and a probe that exits 1, the run dispatches ONLY the list probe
and fails with the probe exit code: the claimed `prepare` and `activate`
steps are never dispatched, because the `elif action == create` branch is
unreachable after the combined create/prepare probe branch. -/
theorem c1_create_failed_probe_dispatches_only_probe :
    run_module (fun _ => ⟨1, "", ""⟩) false none
        { action := "create", objectstore := "bluestore", data := "/dev/sdc" }
        ⟨"s", "e", "d"⟩ =
      (.failedResult "non-zero return code"
         { cmd := some ["ceph-volume", "--cluster", "ceph", "lvm", "list",
                        "/dev/sdc", "--format=json"],
           changed := true, stdout := "", stderr := "", rc := some 1,
           startS := "s", endS := "e", deltaS := "d" },
       [["ceph-volume", "--cluster", "ceph", "lvm", "list", "/dev/sdc",
         "--format=json"]]) := by
  rfl

/-- C2: evaluation of `batch` at a passing parameter set
(`batch_devices = [/dev/sda]`, defaults otherwise).  Because the source
calls `cmd.extend` on the plain strings `--yes` and `--no-systemd`, the
argument vector holds their individual characters, not the whole tokens:
neither `--yes` nor `--no-systemd` occurs as an element. -/
theorem c2_batch_yes_flags_split_into_characters :
    batch { action := "batch", batch_devices := ["/dev/sda"] } none =
      .ok ["ceph-volume", "--cluster", "ceph", "lvm", "batch", "--bluestore",
           "-", "-", "y", "e", "s",
           "-", "-", "n", "o", "-", "s", "y", "s", "t", "e", "m", "d",
           "/dev/sda"] ∧
    "--yes" ∉ ["ceph-volume", "--cluster", "ceph", "lvm", "batch", "--bluestore",
           "-", "-", "y", "e", "s",
           "-", "-", "n", "o", "-", "s", "y", "s", "t", "e", "m", "d",
           "/dev/sda"] ∧
    "--no-systemd" ∉ ["ceph-volume", "--cluster", "ceph", "lvm", "batch", "--bluestore",
           "-", "-", "y", "e", "s",
           "-", "-", "n", "o", "-", "s", "y", "s", "t", "e", "m", "d",
           "/dev/sda"] := by
  refine ⟨rfl, by decide, by decide⟩

/-- C4: evaluation of `prepare_osd` at `data=data-lv, data_vg=data-vg`.
The emitted value after `--data` is the raw `data-lv`; the vg-qualified
reference `data-vg/data-lv` (which `get_data`, the rule used for the other
references, would produce) appears nowhere in the vector. -/
theorem c4_prepare_osd_ignores_data_vg :
    prepare_osd { action := "prepare", data := "data-lv",
                  data_vg := some "data-vg" } none =
      ["ceph-volume", "--cluster", "ceph", "lvm", "prepare", "--bluestore",
       "--data", "data-lv"] ∧
    "data-vg/data-lv" ∉
      prepare_osd { action := "prepare", data := "data-lv",
                    data_vg := some "data-vg" } none ∧
    get_data "data-lv" (some "data-vg") = "data-vg/data-lv" := by
  refine ⟨rfl, by decide, rfl⟩

/-- C3 counterexample: a dispatched `zap` command exiting 1 makes the
module fail with a result whose `changed` field is `true`, refuting the
claim that every such failure reports `changed=false`. -/
theorem c3_counterexample_failed_zap_reports_changed_true :
    (run_module (fun _ => ⟨1, "boom", "err"⟩) false none
        { action := "zap", data := "data-lv", data_vg := some "data-vg",
          journal := some "/dev/sdc1" } ⟨"s", "e", "d"⟩).1 =
      .failedResult "non-zero return code"
        { cmd := some ["ceph-volume", "lvm", "zap", "--destroy",
                       "data-vg/data-lv", "/dev/sdc1"],
          changed := true, stdout := "boom", stderr := "err", rc := some 1,
          startS := "s", endS := "e", deltaS := "d" } := by
  rfl

/-- C5 counterexample: with the default cluster name `ceph` the built
`list` command DOES contain the `--cluster` flag, refuting the claim that
no `--cluster` flag appears for the default cluster name. -/
theorem c5_counterexample_default_cluster_flag_present :
    list_osd { action := "create", data := "/dev/sdc" } none =
      ["ceph-volume", "--cluster", "ceph", "lvm", "list", "/dev/sdc",
       "--format=json"] ∧
    "--cluster" ∈ list_osd { action := "create", data := "/dev/sdc" } none := by
  refine ⟨rfl, by decide⟩

/-- C10: in check mode `run_module` returns the initial result dictionary
(no `cmd` key, `changed=false`, empty stdout/stderr, the empty-string `rc`
placeholder, empty timestamps) and dispatches no command, for every
environment, container context and parameter set. -/
theorem c10_check_mode_returns_initial_result (env : List String → CmdOut)
    (ci : Option String) (p : Params) (t : Times) :
    run_module env true ci p t = (.returned initialResult, []) ∧
    initialResult =
      { cmd := none, changed := false, stdout := "", stderr := "",
        rc := none, startS := "", endS := "", deltaS := "" } := by
  exact ⟨rfl, rfl⟩

end CephVolume

namespace CephVolume

/-- C6: for action `create` or `prepare`, a probe (`list`) exit code of 0
makes the module exit successfully with `changed=false` and the
"already used" message, having dispatched the probe and nothing else. -/
theorem c6_probe_success_short_circuits (env : List String → CmdOut)
    (ci : Option String) (p : Params) (t : Times)
    (h1 : p.action = "create" ∨ p.action = "prepare")
    (h2 : (env (list_osd p ci)).rc = 0) :
    run_module env false ci p t =
      (.exited { cmd := none, changed := false,
                 stdout := "skipped, since " ++ p.data ++ " is already used for an osd",
                 stderr := "", rc := some 0, startS := "", endS := "", deltaS := "" },
       [list_osd p ci]) := by
  have hA : (p.action == "create" || p.action == "prepare") = true := by
    rcases h1 with h | h <;> simp [h]
  simp only [run_module]
  rw [if_neg (by simp : ¬(false = true)), if_pos hA]
  rw [if_pos (by simp [h2] : ((env (list_osd p ci)).rc == 0) = true)]
  rfl

/-- C6 witness: a concrete create run whose probe exits 0. -/
theorem c6_witness :
    run_module (fun _ => ⟨0, "meta", ""⟩) false none
        { action := "create", data := "/dev/sdb" } ⟨"s", "e", "d"⟩ =
      (.exited { cmd := none, changed := false,
                 stdout := "skipped, since " ++ "/dev/sdb" ++ " is already used for an osd",
                 stderr := "", rc := some 0, startS := "", endS := "", deltaS := "" },
       [list_osd { action := "create", data := "/dev/sdb" } none]) :=
  c6_probe_success_short_circuits _ _ _ _ (Or.inl rfl) rfl

/-- C7: for action `batch`, an empty `batch_devices` or `osds_per_device`
below 1 makes the module fail through `fatal` (a changed=false, rc=1
failure) with no command dispatched, regardless of all other parameters. -/
theorem c7_batch_validation_fails_before_dispatch (env : List String → CmdOut)
    (ci : Option String) (p : Params) (t : Times)
    (h1 : p.action = "batch")
    (h2 : p.batch_devices = [] ∨ p.osds_per_device < 1) :
    ∃ m, run_module env false ci p t = (.failedMsg m false 1, []) := by
  have e1 : (p.action == "create" || p.action == "prepare") = false := by simp [h1]
  have e2 : (p.action == "create") = false := by simp [h1]
  have e3 : (p.action == "prepare") = false := by simp [h1]
  have e4 : (p.action == "activate") = false := by simp [h1]
  have e5 : (p.action == "zap") = false := by simp [h1]
  have e6 : (p.action == "list") = false := by simp [h1]
  have e7 : (p.action == "batch") = true := by simp [h1]
  obtain ⟨m, hm⟩ := batch_validation_error p ci h2
  refine ⟨m, ?_⟩
  simp only [run_module, e1, e2, e3, e4, e5, e6, e7, hm]
  rfl

/-- C7 witness: a concrete batch run with an empty device list. -/
theorem c7_witness :
    ∃ m, run_module (fun _ => ⟨0, "", ""⟩) false none
        { action := "batch", batch_devices := [] } ⟨"s", "e", "d"⟩ =
      (.failedMsg m false 1, []) :=
  c7_batch_validation_fails_before_dispatch _ _ _ _ rfl (Or.inl rfl)

/-- C8: for action `activate`, a truthy container image makes the module
fail fatally with no command dispatched; without a container context the
run dispatches exactly `ceph-volume lvm activate --all`. -/
theorem c8_activate (env : List String → CmdOut)
    (ci : Option String) (p : Params) (t : Times)
    (h1 : p.action = "activate") :
    (strTruthy ci = true →
      run_module env false ci p t =
        (.failedMsg
           "This is not how container\x27s activation happens, nothing to activate"
           false 1, [])) ∧
    (strTruthy ci = false →
      run_module env false ci p t =
        (finish t ["ceph-volume", "lvm", "activate", "--all"]
           (env ["ceph-volume", "lvm", "activate", "--all"]),
         [["ceph-volume", "lvm", "activate", "--all"]])) := by
  have e1 : (p.action == "create" || p.action == "prepare") = false := by simp [h1]
  have e2 : (p.action == "create") = false := by simp [h1]
  have e3 : (p.action == "prepare") = false := by simp [h1]
  have e4 : (p.action == "activate") = true := by simp [h1]
  have e5 : activate_osd = ["ceph-volume", "lvm", "activate", "--all"] := rfl
  constructor
  · intro hci
    simp [run_module, e1, e2, e3, e4, hci]
  · intro hci
    simp [run_module, e1, e2, e3, e4, hci, e5]

/-- C8 witness: a concrete containerized activate run fails fatally. -/
theorem c8_witness :
    run_module (fun _ => ⟨0, "", ""⟩) false (some "quay.io/ceph") { action := "activate" }
        ⟨"s", "e", "d"⟩ =
      (.failedMsg
         "This is not how container\x27s activation happens, nothing to activate"
         false 1, []) :=
  (c8_activate _ _ _ _ rfl).1 rfl

end CephVolume

namespace CephVolume

/-- C5 (amended): the builder inserts `--cluster <name>` immediately after
the binary/entrypoint part and before the `lvm` keyword exactly when the
cluster argument it receives is truthy — which includes the module default
`ceph`, passed by the prepare/list/batch builders — and omits it when the
argument is `None` (as for zap and activate) or empty. -/
theorem c5_cluster_flag_iff_truthy_argument (s : String) (ci : Option String)
    (c : String) :
    (c ≠ "" →
      build_ceph_volume_cmd s ci (some c) =
        binaryPart ci ++ ["--cluster", c, "lvm", s]) ∧
    build_ceph_volume_cmd s ci none = binaryPart ci ++ ["lvm", s] ∧
    build_ceph_volume_cmd s ci (some "") = binaryPart ci ++ ["lvm", s] := by
  refine ⟨?_, ?_, ?_⟩
  · intro hc
    have ht : strTruthy (some c) = true := by simp [strTruthy, hc]
    by_cases hci : strTruthy ci = true <;>
      simp [build_ceph_volume_cmd, binaryPart, ht, hci, List.append_assoc]
  · by_cases hci : strTruthy ci = true <;>
      simp [build_ceph_volume_cmd, binaryPart, strTruthy, hci, List.append_assoc]
  · by_cases hci : strTruthy ci = true <;>
      simp [build_ceph_volume_cmd, binaryPart, strTruthy, hci, List.append_assoc]

/-- C5 witness: the default cluster name, being truthy, gets the flag. -/
theorem c5_witness :
    build_ceph_volume_cmd "list" none (some "ceph") =
      binaryPart none ++ ["--cluster", "ceph", "lvm", "list"] :=
  (c5_cluster_flag_iff_truthy_argument "list" none "ceph").1 (by decide)

/-- C9: the concrete zap example builds exactly
`ceph-volume lvm zap --destroy data-vg/data-lv /dev/sdc1`; in general the
zap vector is the binary part, `lvm zap`, `--destroy`, the vg-qualified
data reference, then journal, db and wal references in that order when
present. -/
theorem c9_zap_layout :
    zap_devices { action := "zap", data := "data-lv", data_vg := some "data-vg",
                  journal := some "/dev/sdc1" } none =
      ["ceph-volume", "lvm", "zap", "--destroy", "data-vg/data-lv", "/dev/sdc1"] ∧
    ∀ (p : Params) (ci : Option String),
      zap_devices p ci =
        binaryPart ci ++ ["lvm", "zap", "--destroy", get_data p.data p.data_vg] ++
        (if strTruthy p.journal then [get_journal (p.journal.getD "") p.journal_vg] else []) ++
        (if strTruthy p.db then [get_db (p.db.getD "") p.db_vg] else []) ++
        (if strTruthy p.wal then [get_wal (p.wal.getD "") p.wal_vg] else []) := by
  constructor
  · rfl
  · intro p ci
    have hn : strTruthy none = false := rfl
    by_cases hci : strTruthy ci = true <;>
      by_cases hj : strTruthy p.journal = true <;>
        by_cases hd : strTruthy p.db = true <;>
          by_cases hw : strTruthy p.wal = true <;>
            simp [zap_devices, build_ceph_volume_cmd, binaryPart, hn,
                  hci, hj, hd, hw, List.append_assoc]

end CephVolume

namespace CephVolume

/-- C3 (amended): whenever a dispatched command exits non-zero, the module
fails — but the failure carries the final result dictionary, which reports
`changed=true`, not `changed=false` (only the `fatal` validation paths and
the bad-action path, which dispatch nothing, report `changed=false`). -/
theorem c3_failed_dispatch_reports_changed_true
    (env : List String → CmdOut) (ci : Option String) (p : Params) (t : Times)
    (o : Outcome) (tr : List (List String))
    (h : run_module env false ci p t = (o, tr))
    (c : List String) (hc : c ∈ tr) (hrc : (env c).rc ≠ 0) :
    o = .failedResult "non-zero return code" (finishResult t c (env c)) ∧
    (finishResult t c (env c)).changed = true := by
  refine ⟨?_, rfl⟩
  simp only [run_module] at h
  rw [if_neg (by simp : ¬(false = true))] at h
  by_cases hA : (p.action == "create" || p.action == "prepare") = true
  · rw [if_pos hA] at h
    by_cases hR : ((env (list_osd p ci)).rc == 0) = true
    · rw [if_pos hR] at h
      injection h with h1 h2
      subst h2
      rw [List.mem_singleton] at hc
      subst hc
      exact absurd (by simpa using hR) hrc
    · rw [if_neg hR] at h
      injection h with h1 h2
      subst h2
      rw [List.mem_singleton] at hc
      subst hc
      subst h1
      exact finish_eq_failed _ _ _ hrc
  · rw [if_neg hA] at h
    have hA1 : ¬((p.action == "create") = true) := fun hx => hA (by simp [hx])
    rw [if_neg hA1] at h
    have hA2 : ¬((p.action == "prepare") = true) := fun hx => hA (by simp [hx])
    rw [if_neg hA2] at h
    by_cases hAct : (p.action == "activate") = true
    · rw [if_pos hAct] at h
      by_cases hCI : strTruthy ci = true
      · rw [if_pos hCI] at h
        injection h with h1 h2
        subst h2
        exact absurd hc (List.not_mem_nil c)
      · rw [if_neg hCI] at h
        injection h with h1 h2
        subst h2
        rw [List.mem_singleton] at hc
        subst hc
        subst h1
        exact finish_eq_failed _ _ _ hrc
    · rw [if_neg hAct] at h
      by_cases hZ : (p.action == "zap") = true
      · rw [if_pos hZ] at h
        injection h with h1 h2
        subst h2
        rw [List.mem_singleton] at hc
        subst hc
        subst h1
        exact finish_eq_failed _ _ _ hrc
      · rw [if_neg hZ] at h
        by_cases hL : (p.action == "list") = true
        · rw [if_pos hL] at h
          injection h with h1 h2
          subst h2
          rw [List.mem_singleton] at hc
          subst hc
          subst h1
          exact finish_eq_failed _ _ _ hrc
        · rw [if_neg hL] at h
          by_cases hB : (p.action == "batch") = true
          · rw [if_pos hB] at h
            rcases hEb : batch p ci with m | cmd
            · simp only [hEb] at h
              injection h with h1 h2
              subst h2
              exact absurd hc (List.not_mem_nil c)
            · simp only [hEb] at h
              injection h with h1 h2
              subst h2
              rw [List.mem_singleton] at hc
              subst hc
              subst h1
              exact finish_eq_failed _ _ _ hrc
          · rw [if_neg hB] at h
            injection h with h1 h2
            subst h2
            exact absurd hc (List.not_mem_nil c)

/-- C3 witness: a concrete zap run whose command exits 1 fails with the
`changed=true` result. -/
theorem c3_witness :
    (run_module (fun _ => ⟨1, "boom", "err"⟩) false none
        { action := "zap", data := "data-lv", data_vg := some "data-vg",
          journal := some "/dev/sdc1" } ⟨"s", "e", "d"⟩).1 =
      .failedResult "non-zero return code"
        (finishResult ⟨"s", "e", "d"⟩
          ["ceph-volume", "lvm", "zap", "--destroy", "data-vg/data-lv", "/dev/sdc1"]
          ((fun _ => (⟨1, "boom", "err"⟩ : CmdOut))
            ["ceph-volume", "lvm", "zap", "--destroy", "data-vg/data-lv", "/dev/sdc1"])) ∧
    (finishResult ⟨"s", "e", "d"⟩
        ["ceph-volume", "lvm", "zap", "--destroy", "data-vg/data-lv", "/dev/sdc1"]
        ((fun _ => (⟨1, "boom", "err"⟩ : CmdOut))
          ["ceph-volume", "lvm", "zap", "--destroy", "data-vg/data-lv", "/dev/sdc1"])).changed
      = true :=
  c3_failed_dispatch_reports_changed_true (fun _ => ⟨1, "boom", "err"⟩) none
    { action := "zap", data := "data-lv", data_vg := some "data-vg",
      journal := some "/dev/sdc1" } ⟨"s", "e", "d"⟩
    ((run_module (fun _ => ⟨1, "boom", "err"⟩) false none
        { action := "zap", data := "data-lv", data_vg := some "data-vg",
          journal := some "/dev/sdc1" } ⟨"s", "e", "d"⟩).1)
    ((run_module (fun _ => ⟨1, "boom", "err"⟩) false none
        { action := "zap", data := "data-lv", data_vg := some "data-vg",
          journal := some "/dev/sdc1" } ⟨"s", "e", "d"⟩).2)
    rfl
    ["ceph-volume", "lvm", "zap", "--destroy", "data-vg/data-lv", "/dev/sdc1"]
    (by decide) (by decide)

end CephVolume
